import Mathlib

/-!
Verification of the ReAct multi-tool agent (`src/workflow.py`, `src/tools.py`,
`src/google_search.py`) through a shallow embedding.

Modelling conventions:
* Python strings are Lean `String`s; the Python string methods the source uses
  (`find`, `in`, slicing, `strip`, `lower`, `startswith`, `endswith`,
  `split`) are embedded as executable functions on `List Char`.
* The LangGraph state dict (`AgentState`, src/state.py) becomes a structure
  with `Option` fields; a node's partial-update dict becomes an explicit
  update value that is merged into the state.
* External effects (the hosted model completion, tool side effects such as
  `eval`, `datetime.now()` and network calls) become explicit parameters:
  the model is an oracle list of response texts, tool execution is an oracle
  returning either an observation string or a raised-exception message, and
  calendar dates are integer day numbers (both sides of every comparison in
  the source are midnight-normalized, so a date is exactly its day index).
* Fallible calls are `Except`/`Option` valued; a Python `raise` is an
  `Except.error` carrying the message.
-/

namespace WikiAgent

/-- Boolean test that `pat` is a prefix of `s` (helper for substring search). -/
def isPrefixB : List Char → List Char → Bool
  | [], _ => true
  | _ :: _, [] => false
  | a :: as, b :: bs => a == b && isPrefixB as bs

/-- First index at or past the running offset `i` where `pat` occurs in the
remaining text; `none` when it never occurs.  Underlies Python `str.find`. -/
def findSubAux (pat : List Char) : List Char → Nat → Option Nat
  | [], i => if isPrefixB pat [] then some i else none
  | c :: rest, i =>
    if isPrefixB pat (c :: rest) then some i else findSubAux pat rest (i + 1)

/-- Python `pat in s` (substring containment). -/
def containsSub (s pat : List Char) : Bool := (findSubAux pat s 0).isSome

/-- Index of the first occurrence of `pat` in `s`; callers guard with
`containsSub`, matching the source's `find` uses on the guarded path. -/
def firstIdx (s pat : List Char) : Nat := (findSubAux pat s 0).getD 0

/-- Python `s.find(pat, start)`: first occurrence at index ≥ `start`. -/
def findFrom (s pat : List Char) (start : Nat) : Option Nat :=
  (findSubAux pat (s.drop start) 0).map (· + start)

/-- ASCII whitespace, as stripped by Python `str.strip()` and matched by the
regex class `\s` in the source's dict patterns. -/
def pySpace (c : Char) : Bool :=
  c == ' ' || c == '\t' || c == '\n' || c == '\r' || c == '\x0b' || c == '\x0c'

/-- Python `str.strip()`. -/
def pyStrip (s : List Char) : List Char :=
  ((s.dropWhile pySpace).reverse.dropWhile pySpace).reverse

/-- Python `str.lower()` (ASCII case folding; the source only compares ASCII
keywords after lowering). -/
def pyLower (s : List Char) : List Char := s.map Char.toLower

/-- Boolean test that `pat` is a suffix of `s` (Python `str.endswith`). -/
def isSuffixB (pat s : List Char) : Bool := isPrefixB pat.reverse s.reverse

/-- `extract_between` (workflow.py 35-49): text between the first occurrence
of `start_marker` and the following `end_marker` (to the end of the text when
the end marker is `none` or absent), stripped; `[]` when the start marker is
absent. -/
def extract_between (text start_marker : List Char)
    (end_marker : Option (List Char)) : List Char :=
  if !containsSub text start_marker then []
  else
    let s := firstIdx text start_marker + start_marker.length
    let e :=
      match end_marker with
      | some em =>
        match findFrom text em s with
        | some j => j
        | none => text.length
      | none => text.length
    pyStrip ((text.drop s).take (e - s))

/-- `clean_input_text` (workflow.py 52-58): drop one pair of matching outer
quotes, then strip. -/
def clean_input_text (input_text : List Char) : List Char :=
  let t :=
    if (isPrefixB ['\''] input_text && isSuffixB ['\''] input_text) ||
       (isPrefixB ['"'] input_text && isSuffixB ['"'] input_text) then
      (input_text.drop 1).dropLast
    else input_text
  pyStrip t

/-- The dictionaries `parse_tool_input` can return, one constructor per
shape (workflow.py 61-95). -/
inductive ToolInput where
  | empty
  | expression (e : String)
  | format (f : String)
  | query (q : String)
  | days (n : Int)
  | target_date (d : String)
  deriving Repr, DecidableEq

/-- The character class `['\"]` of the dict regexes in `parse_tool_input`. -/
def isQuoteChar (c : Char) : Bool := c == '\'' || c == '"'

/-- Lazy tail `(.+?)['\"]\x7d` of the dict regexes: the shortest non-empty run
of non-newline characters that is followed by a quote and a closing brace. -/
def lazyGroup (acc : List Char) : List Char → Option (List Char)
  | [] => none
  | c :: rest =>
    if c == '\n' then none
    else
      match rest with
      | q :: '\x7d' :: _ =>
        if isQuoteChar q then some (acc ++ [c]) else lazyGroup (acc ++ [c]) rest
      | _ => lazyGroup (acc ++ [c]) rest

/-- Match the regex `\x7b['\"]KEY['\"]:\s*['\"](.+?)['\"]\x7d` anchored at the
head of `s`, returning the lazily matched group. -/
def dictPatAt (key : List Char) (s : List Char) : Option (List Char) :=
  match s with
  | '\x7b' :: q1 :: rest =>
    if isQuoteChar q1 && isPrefixB key rest then
      match rest.drop key.length with
      | q2 :: ':' :: rest2 =>
        if isQuoteChar q2 then
          match rest2.dropWhile pySpace with
          | q3 :: rest3 => if isQuoteChar q3 then lazyGroup [] rest3 else none
          | [] => none
        else none
      | _ => none
    else none
  | _ => none

/-- `re.search` of the dict pattern: leftmost position at which the anchored
pattern matches, returning its group. -/
def searchDictPat (key : List Char) : List Char → Option (List Char)
  | [] => none
  | c :: rest =>
    match dictPatAt key (c :: rest) with
    | some g => some g
    | none => searchDictPat key rest

/-- The regex `^-?\d+$` used by the datecalculator branch of
`parse_tool_input`. -/
def matchesIntLit (s : List Char) : Bool :=
  match s with
  | '-' :: rest => !rest.isEmpty && rest.all Char.isDigit
  | _ => !s.isEmpty && s.all Char.isDigit

/-- Digits-to-number accumulator for Python `int(...)`. -/
def digitsToNat (s : List Char) : Nat :=
  s.foldl (fun n c => n * 10 + (c.toNat - '0'.toNat)) 0

/-- Python `int(...)` on a string already matched by `^-?\d+$`. -/
def pyInt (s : List Char) : Int :=
  match s with
  | '-' :: rest => -(digitsToNat rest : Int)
  | _ => (digitsToNat s : Int)

/-- `parse_tool_input` (workflow.py 61-95). -/
def parse_tool_input (tool_name raw_input : String) : ToolInput :=
  let input_text := clean_input_text raw_input.data
  if tool_name == "calculator" then
    .expression (String.mk input_text)
  else if tool_name == "datetime" then
    if !input_text.isEmpty && pyLower input_text != "none".data then
      .format (String.mk input_text)
    else .empty
  else if tool_name == "web_search" then
    let q :=
      match searchDictPat "query".data input_text with
      | some g => g
      | none => input_text
    .query (String.mk q)
  else if tool_name == "datecalculator" then
    let t :=
      match searchDictPat "target_date".data input_text with
      | some g => g
      | none => input_text
    if matchesIntLit t then .days (pyInt t) else .target_date (String.mk t)
  else .empty

/-- `re.findall` of `\d+`: the maximal runs of digits, left to right,
accumulating the current run reversed. -/
def digitRunsAux (cur : List Char) : List Char → List (List Char)
  | [] => if cur.isEmpty then [] else [cur.reverse]
  | c :: rest =>
    if c.isDigit then digitRunsAux (c :: cur) rest
    else if cur.isEmpty then digitRunsAux [] rest
    else cur.reverse :: digitRunsAux [] rest

/-- `re.findall(r'\d+', s)`. -/
def digitRuns (s : List Char) : List (List Char) := digitRunsAux [] s

/-- `parse_tool_input_from_question` (workflow.py 98-108). -/
def parse_tool_input_from_question (tool_name question : String) : ToolInput :=
  if tool_name == "datecalculator" then
    let numbers := digitRuns question.data
    if containsSub (pyLower question.data) "until".data ||
       containsSub (pyLower question.data) "days to".data then
      .empty
    else
      match numbers with
      | n :: _ => .days (pyInt n)
      | [] => .days 0
  else .empty

/-- The update dict `reasoning_node` returns (workflow.py 263-268): all four
keys are always present, so each reasoning turn overwrites all four state
channels. -/
structure ReasonUpdates where
  thought : String
  tool_name : Option String
  tool_input : Option ToolInput
  final_answer : Option String
  deriving Repr, DecidableEq

/-- The tool name computed at workflow.py 283-286: text after the `TOOL:`
marker, reduced to its stripped first line when it spans several lines. -/
def reasonToolName (text : List Char) : List Char :=
  let tn := extract_between text "TOOL:".data none
  if !tn.isEmpty && tn.contains '\n' then pyStrip (tn.takeWhile (· != '\n'))
  else tn

/-- The raw INPUT section computed at workflow.py 291-302: from just past the
first `INPUT:` marker to the earliest later marker (or the end), stripped. -/
def reasonRawInput (text : List Char) : List Char :=
  let input_start := firstIdx text "INPUT:".data + 6
  let step := fun (input_end : Nat) (marker : List Char) =>
    match findFrom text marker input_start with
    | some p => if p < input_end then p else input_end
    | none => input_end
  let input_end :=
    step (step (step text.length "THOUGHT:".data) "FINAL ANSWER:".data) "TOOL:".data
  pyStrip ((text.drop input_start).take (input_end - input_start))

/-- The guard at workflow.py 282: a `TOOL:` marker occurs, and no
`FINAL ANSWER:` marker occurs in the text before its first occurrence. -/
def toolMarkerFirst (text : List Char) : Bool :=
  containsSub text "TOOL:".data &&
  !containsSub (text.take (firstIdx text "TOOL:".data)) "FINAL ANSWER:".data

/-- The full thought text stored by workflow.py 271-278 (the first-line
reduction there only affects what is printed). -/
def reasonThought (text : List Char) : String :=
  String.mk (extract_between text "THOUGHT:".data none)

/-- The tool input chosen at workflow.py 291-306: parsed from the raw INPUT
section when an `INPUT:` marker occurs anywhere in the text, otherwise
recovered from the original question. -/
def reasonToolInput (text : List Char) (tool_name question : String) : ToolInput :=
  if containsSub text "INPUT:".data then
    parse_tool_input tool_name (String.mk (reasonRawInput text))
  else
    parse_tool_input_from_question tool_name question

/-- The pure action-parsing tail of `reasoning_node` (workflow.py 262-314):
maps the model response text and the original question to the state update
the node returns.  The model call itself and all printing are I/O and sit
outside this function; its input is the completion text they produce. -/
def reasoning_node_parse (reasoning_text question : String) : ReasonUpdates :=
  if toolMarkerFirst reasoning_text.data then
    if !(reasonToolName reasoning_text.data).isEmpty then
      { thought := reasonThought reasoning_text.data,
        tool_name := some (String.mk (reasonToolName reasoning_text.data)),
        tool_input := some (reasonToolInput reasoning_text.data
          (String.mk (reasonToolName reasoning_text.data)) question),
        final_answer := none }
    else
      { thought := reasonThought reasoning_text.data,
        tool_name := none, tool_input := none, final_answer := none }
  else if containsSub reasoning_text.data "FINAL ANSWER:".data then
    if !(extract_between reasoning_text.data "FINAL ANSWER:".data none).isEmpty then
      { thought := reasonThought reasoning_text.data,
        tool_name := none, tool_input := none,
        final_answer := some (String.mk
          (extract_between reasoning_text.data "FINAL ANSWER:".data none)) }
    else
      { thought := reasonThought reasoning_text.data,
        tool_name := none, tool_input := none, final_answer := none }
  else
    { thought := reasonThought reasoning_text.data,
      tool_name := none, tool_input := none, final_answer := none }

/-- A history entry as appended by `tool_execution_node` (workflow.py
343-348); the `tool_input` there is already serialized to a string. -/
structure Step where
  thought : String
  tool : String
  tool_input : String
  observation : String
  deriving Repr, DecidableEq

/-- The `complete_answer_patterns` check on the most recent entry
(workflow.py 121-127), combined with `any(...)`. -/
def completeAnswerPattern (last_step : Step) : Bool :=
  let obs := last_step.observation.data
  (containsSub obs "Date calculation:".data && containsSub obs "will be a".data) ||
  (containsSub obs "Date calculation:".data && containsSub obs "was a".data) ||
  (containsSub obs "Days until".data || containsSub obs "Days since".data) ||
  (containsSub obs "Result:".data && last_step.tool == "calculator") ||
  containsSub obs "Current date and time:".data

/-- Python `len(set(l)) == 1`: the list is non-empty and all elements equal. -/
def allSame (l : List String) : Bool :=
  match l with
  | [] => false
  | x :: xs => xs.all (· == x)

/-- The loop-detection condition (workflow.py 133-136): at least three
entries, and the last three (`steps[-3:]`) share one tool name and one
serialized input. -/
def loopCond (steps : List Step) : Bool :=
  decide (3 ≤ steps.length) &&
  allSame ((steps.drop (steps.length - 3)).map (·.tool)) &&
  allSame ((steps.drop (steps.length - 3)).map (·.tool_input))

/-- `should_force_final_answer` (workflow.py 111-143). -/
def should_force_final_answer (steps : List Step) : Bool × String :=
  match steps.getLast? with
  | none => (false, "")
  | some last_step =>
    if completeAnswerPattern last_step then (true, "complete_answer")
    else if loopCond steps then (true, "loop_detected")
    else if 10 ≤ steps.length then (true, "max_steps")
    else (false, "")

/-- The complete-answer check applied to the most recent history entry,
`false` on an empty history. -/
def lastStepCompleteAnswer (steps : List Step) : Bool :=
  match steps.getLast? with
  | none => false
  | some last_step => completeAnswerPattern last_step

/-- Outcome of `CalculatorTool.execute` (tools.py 64-89), modelled up to the
`eval` call: the guard either returns the error string, or control reaches
the evaluation step with the unmodified expression. -/
inductive CalcOutcome where
  | error (msg : String)
  | evalReached (expression : String)
  deriving Repr, DecidableEq

/-- The disallowed-token guard of `CalculatorTool.execute` (tools.py 76):
`any(bad in expression.lower() for bad in ['import', 'exec', 'eval', '__'])`. -/
def calculatorGuard (expression : String) : Bool :=
  containsSub (pyLower expression.data) "import".data ||
  containsSub (pyLower expression.data) "exec".data ||
  containsSub (pyLower expression.data) "eval".data ||
  containsSub (pyLower expression.data) "__".data

/-- `CalculatorTool.execute` up to the evaluation step: a guarded expression
returns `"Error: Invalid expression"` before `eval` is ever reached. -/
def CalculatorTool.execute (expression : String) : CalcOutcome :=
  if calculatorGuard expression then .error "Error: Invalid expression"
  else .evalReached expression

/-- Result shape of `DateCalculatorTool.execute` (tools.py 144-207), one
constructor per textual branch; the numeric payloads are the day counts the
formatted strings report. -/
inductive DateCalcResult where
  | isToday
  | daysUntil (n : Int)
  | daysSince (n : Int)
  | parseError
  | todayIs
  | dateFrom (d : Int)
  | dateAgo (d : Int)
  deriving Repr, DecidableEq

/-- `DateCalculatorTool.execute` (tools.py 144-207).  `today` is the
midnight-normalized current day number.  A provided `target_date` string
arrives as `some parseOutcome`: the target's midnight-normalized day number,
or `none` when `dateutil.parser` raises.  With both datetimes normalized to
midnight, `(target - today).days` is exactly the difference of day numbers. -/
def DateCalculatorTool.execute (today : Int)
    (target_date : Option (Option Int)) (days : Option Int) : DateCalcResult :=
  match target_date with
  | some (some target) =>
    let days_diff := target - today
    if days_diff = 0 then .isToday
    else if 0 < days_diff then .daysUntil days_diff
    else .daysSince |days_diff|
  | some none => .parseError
  | none =>
    match days with
    | some d =>
      if d = 0 then .todayIs
      else if 0 < d then .dateFrom d
      else .dateAgo |d|
    | none => .todayIs

/-- One search hit as delivered by the search API (google_search.py 70-82);
the `.get` defaults in the source make every field optional. -/
structure SearchItem where
  title : Option String
  link : Option String
  snippet : Option String
  deriving Repr, DecidableEq

/-- The decoded JSON body of the search response: `items` is absent
(`'items' not in data`) or a list of hits. -/
structure SearchData where
  items : Option (List SearchItem)
  deriving Repr, DecidableEq

/-- The dictionary `search_and_extract` returns (google_search.py 72-85). -/
structure SearchResult where
  title : String
  url : String
  content : String
  deriving Repr, DecidableEq

/-- `GoogleSearchTool.search_and_extract` (google_search.py 40-85) for one
attempt.  `searchCall` stands for the HTTP search request: `.error` when
`requests.get` or `raise_for_status` raises, `.ok` with the decoded body
otherwise.  `extractCall` plays `_extract_content` on a URL: `.error` when
the page fetch or extraction raises.  The `tenacity` wrapper re-raises the
last failure unchanged (`reraise=True`), so whether a whole call raises or
returns is decided by its final attempt, which this function models. -/
def search_and_extract (query : String)
    (searchCall : Except String SearchData)
    (extractCall : String → Except String String) : Except String SearchResult :=
  match searchCall with
  | .error e => .error e
  | .ok data =>
    match data.items with
    | none => .error ("No Google search results found for query: " ++ query)
    | some [] => .error ("No Google search results found for query: " ++ query)
    | some (top :: _) =>
      let url := top.link.getD ""
      let content :=
        match extractCall url with
        | .ok c => c
        | .error _ => top.snippet.getD "Content extraction failed"
      .ok { title := top.title.getD "", url := url, content := content }

/-- Whether an embedded call raised. -/
def isRaise {α : Type} : Except String α → Bool
  | .error _ => true
  | .ok _ => false

/-- The zero-results condition of google_search.py 67:
`'items' not in data or not data['items']`, on a completed search call. -/
def searchZeroResults : Except String SearchData → Bool
  | .error _ => false
  | .ok data =>
    match data.items with
    | none => true
    | some [] => true
    | some (_ :: _) => false

/-- The tool names registered by `ToolRegistry._register_default_tools`
(tools.py 249-254). -/
def registryNames : List String :=
  ["calculator", "datetime", "datecalculator", "web_search"]

/-- `AgentState` (src/state.py): the LangGraph state dict.  An `Option`
value of `none` stands for a channel that is absent or holds Python `None`;
the source reads every such channel through `.get` with a default. -/
structure AgentState where
  question : String
  thought : Option String := none
  tool_name : Option String := none
  tool_input : Option ToolInput := none
  observation : Option String := none
  final_answer : Option String := none
  steps : Option (List Step) := none
  error : Option String := none
  deriving Repr, DecidableEq

/-- Python truthiness of an optional string channel: absent, `None` and the
empty string are falsy. -/
def truthy : Option String → Bool
  | none => false
  | some s => !s.isEmpty

/-- The two labels `route_after_reasoning` can return (workflow.py 364). -/
inductive Route where
  | execute_tool
  | provide_answer
  deriving Repr, DecidableEq

/-- `route_after_reasoning` (workflow.py 364-387). -/
def route_after_reasoning (state : AgentState) : Route :=
  if truthy state.final_answer then .provide_answer
  else if truthy state.tool_name then .execute_tool
  else .provide_answer

/-- Python `repr` of a string, for text without quote or escape characters
(the case arising from the inputs this development evaluates). -/
def pyReprStr (s : String) : String := "'" ++ s ++ "'"

/-- Python `str(tool_input)` as appended to the history (workflow.py 346). -/
def pyReprToolInput : ToolInput → String
  | .empty => "\x7b\x7d"
  | .expression e => "\x7b'expression': " ++ pyReprStr e ++ "\x7d"
  | .format f => "\x7b'format': " ++ pyReprStr f ++ "\x7d"
  | .query q => "\x7b'query': " ++ pyReprStr q ++ "\x7d"
  | .days n => "\x7b'days': " ++ toString n ++ "\x7d"
  | .target_date d => "\x7b'target_date': " ++ pyReprStr d ++ "\x7d"

/-- The partial update dict `tool_execution_node` returns: exactly one of
the source's return shapes (workflow.py 322, 326, 350-353, 356). -/
inductive ToolNodeUpdate where
  | errorOnly (error : String)
  | observed (observation : String) (steps : List Step)
  deriving Repr, DecidableEq

/-- Tool side effects (eval, system clock, network) are external, so a run
supplies them as an oracle from tool name and input to the observation the
tool returns, or to the message of the exception `tool.execute` raises. -/
def ToolOracle := String → ToolInput → Except String String

/-- `tool_execution_node` (workflow.py 317-356). -/
def tool_execution_node (exec : ToolOracle) (state : AgentState) : ToolNodeUpdate :=
  if !truthy state.tool_name then .errorOnly "No tool selected"
  else
    let name := (state.tool_name).getD ""
    if !registryNames.contains name then
      .errorOnly ("Tool '" ++ name ++ "' not found")
    else
      let tool_input := (state.tool_input).getD .empty
      match exec name tool_input with
      | .ok observation =>
        .observed observation
          ((state.steps).getD [] ++
            [{ thought := (state.thought).getD "", tool := name,
               tool_input := pyReprToolInput tool_input,
               observation := observation }])
      | .error e => .errorOnly ("Tool execution error: " ++ e)

/-- Merge a reasoning update into the state: the node's update dict always
carries all four keys (workflow.py 263-268), so all four channels are
overwritten each reasoning turn. -/
def applyReason (state : AgentState) (u : ReasonUpdates) : AgentState :=
  { state with thought := some u.thought, tool_name := u.tool_name,
               tool_input := u.tool_input, final_answer := u.final_answer }

/-- Merge a tool-node update into the state: only returned keys change. -/
def applyToolUpdate (state : AgentState) : ToolNodeUpdate → AgentState
  | .errorOnly e => { state with error := some e }
  | .observed obs steps =>
    { state with observation := some obs, steps := some steps }

/-- Trace events of one workflow run, recording which turns occurred. -/
inductive Event where
  | reasoned (response : String)
  | toolMissed (name : String)
  | toolRan (name : String) (observation : String)
  | toolRaised (name : String)
  | noToolSelected
  deriving Repr, DecidableEq

/-- The two nodes of the compiled graph (workflow.py 395-396). -/
inductive GraphNode where
  | reason
  | tool
  deriving Repr, DecidableEq

/-- One run of the compiled graph (`create_workflow`, workflow.py 390-414):
entry point `reason`; after `reason` the conditional edge either ends the
run or enters `tool`; after `tool` the unconditional edge returns to
`reason` (workflow.py 412).  The model call inside `reasoning_node` reads
the oracle `responses`, one entry per reasoning turn.  The fuel is
LangGraph's `recursion_limit`; exhausting it raises `GraphRecursionError`,
whose message contains the words "recursion limit". -/
def runGraph (exec : ToolOracle) (responses : List String) :
    Nat → GraphNode → Nat → AgentState → List Event →
    Except String (AgentState × List Event)
  | 0, _, _, _, _ =>
    .error "Recursion limit of 25 reached without hitting a stop condition."
  | fuel + 1, .reason, k, state, trace =>
    let resp := responses.getD k ""
    let state' := applyReason state (reasoning_node_parse resp state.question)
    let trace' := trace ++ [.reasoned resp]
    match route_after_reasoning state' with
    | .provide_answer => .ok (state', trace')
    | .execute_tool => runGraph exec responses fuel .tool (k + 1) state' trace'
  | fuel + 1, .tool, k, state, trace =>
    let u := tool_execution_node exec state
    let ev :=
      match u with
      | .errorOnly _ =>
        if !truthy state.tool_name then Event.noToolSelected
        else if !registryNames.contains ((state.tool_name).getD "") then
          Event.toolMissed ((state.tool_name).getD "")
        else Event.toolRaised ((state.tool_name).getD "")
      | .observed obs _ => Event.toolRan ((state.tool_name).getD "") obs
    runGraph exec responses fuel .reason k (applyToolUpdate state u) (trace ++ [ev])

/-- `workflow.invoke(initial_state, config)` with `recursion_limit = 25`
(workflow.py 447-459), from the initial state `{question, steps: []}`
(workflow.py 438-441). -/
def workflowInvoke (exec : ToolOracle) (responses : List String)
    (question : String) : Except String (AgentState × List Event) :=
  runGraph exec responses 25 .reason 0
    { question := question, steps := some [] } []

/-- The dictionary `run_qa_workflow` returns (workflow.py 474-480). -/
structure QAResult where
  question : String
  answer : String
  steps : List Step
  error : Option String
  deriving Repr, DecidableEq

/-- `run_qa_workflow` (workflow.py 417-480) downstream of the `invoke`
call: `invokeOutcome` is the final state the workflow run produced, or the
message of the exception it raised.  Modelling note: on the success path the
`Option.getD` reads conflate an absent channel with one explicitly written
`None`; Python's `result.get('final_answer', ...)` returns the stored
`None` — not the fallback string — when a reasoning turn wrote `None` into
the channel.  The exception path, where the handler always stores a concrete
answer string before the reads, is modelled exactly. -/
def run_qa_workflow (question : String)
    (invokeOutcome : Except String AgentState) : QAResult :=
  let result : AgentState :=
    match invokeOutcome with
    | .ok r => r
    | .error e =>
      { question := question, steps := some [], error := some e,
        final_answer := some
          (if containsSub (pyLower e.data) "recursion limit".data then
            "I apologize, but I wasn't able to complete the request as it required too many steps. Please try rephrasing your question or being more specific."
          else
            "I encountered an error while processing your request: " ++ e) }
  { question := question,
    answer := (result.final_answer).getD "Unable to generate an answer",
    steps := (result.steps).getD [],
    error := result.error }

/-! ## Theorems -/

/-- C3: for every expression containing one of the disallowed tokens
`import`, `exec`, `eval` or a double underscore (case-insensitively, as a
substring), `CalculatorTool.execute` returns the error string
`"Error: Invalid expression"` and the evaluation step is never reached. -/
theorem calculator_rejects_disallowed_tokens (expression : String)
    (h : containsSub (pyLower expression.data) "import".data = true ∨
         containsSub (pyLower expression.data) "exec".data = true ∨
         containsSub (pyLower expression.data) "eval".data = true ∨
         containsSub (pyLower expression.data) "__".data = true) :
    CalculatorTool.execute expression = .error "Error: Invalid expression" ∧
    ∀ e, CalculatorTool.execute expression ≠ .evalReached e := by
  have hg : calculatorGuard expression = true := by
    unfold calculatorGuard
    rcases h with h | h | h | h <;> simp [h]
  unfold CalculatorTool.execute
  rw [hg]
  exact ⟨rfl, fun e hc => by cases hc⟩

/-- Witness for C3 at the concrete expression `__import__(os).system(x)`. -/
theorem calculator_rejects_disallowed_tokens_witness :
    CalculatorTool.execute "__import__(os).system(x)" =
      .error "Error: Invalid expression" :=
  (calculator_rejects_disallowed_tokens "__import__(os).system(x)"
    (Or.inl (by decide))).1

/-- C8: for every target date that parses, the branch of
`DateCalculatorTool.execute` matches the sign of the midnight-normalized day
difference: strictly future targets take the days-until branch, strictly
past targets the days-since branch with a positive count, and a target equal
to today the is-today branch. -/
theorem datecalculator_branch_matches_sign (today target : Int)
    (days : Option Int) :
    (today < target →
      DateCalculatorTool.execute today (some (some target)) days =
        .daysUntil (target - today) ∧ 0 < target - today) ∧
    (target < today →
      DateCalculatorTool.execute today (some (some target)) days =
        .daysSince (today - target) ∧ 0 < today - target) ∧
    (target = today →
      DateCalculatorTool.execute today (some (some target)) days =
        .isToday) := by
  unfold DateCalculatorTool.execute
  refine ⟨fun h => ⟨?_, by omega⟩, fun h => ⟨?_, by omega⟩, fun h => ?_⟩
  · have h0 : ¬(target - today = 0) := by omega
    have h1 : 0 < target - today := by omega
    simp [h0, h1]
  · have h0 : ¬(target - today = 0) := by omega
    have h1 : ¬(0 < target - today) := by omega
    have h2 : |target - today| = today - target := by
      rw [abs_of_neg (by omega)]; ring
    simp [h0, h1, h2]
  · subst h
    simp

/-- Witness for C8 at day numbers 100 (today) and 107, 93, 100 (targets). -/
theorem datecalculator_branch_matches_sign_witness :
    DateCalculatorTool.execute 100 (some (some 107)) none = .daysUntil 7 ∧
    DateCalculatorTool.execute 100 (some (some 93)) none = .daysSince 7 ∧
    DateCalculatorTool.execute 100 (some (some 100)) none = .isToday := by
  refine ⟨?_, ?_, ?_⟩
  · have h := ((datecalculator_branch_matches_sign 100 107 none).1
      (by norm_num)).1
    norm_num at h
    exact h
  · have h := ((datecalculator_branch_matches_sign 100 93 none).2.1
      (by norm_num)).1
    norm_num at h
    exact h
  · exact (datecalculator_branch_matches_sign 100 100 none).2.2 rfl

/-- C9: a single run of the action parser never yields both a tool selection
and a final answer: in the returned update at least one of the two channels
is `none`. -/
theorem reasoning_parse_mutually_exclusive (reasoning_text question : String) :
    (reasoning_node_parse reasoning_text question).tool_name = none ∨
    (reasoning_node_parse reasoning_text question).final_answer = none := by
  unfold reasoning_node_parse
  split
  · split
    · exact Or.inr rfl
    · exact Or.inl rfl
  · split
    · split
      · exact Or.inl rfl
      · exact Or.inl rfl
    · exact Or.inl rfl

/-- C1 counterexample: two of the claim's clauses fail at concrete inputs.
In the response text `"TOOL:"` the tool marker occurs with no final-answer
marker before it, yet the parser yields neither a tool selection nor a
final answer (the extracted tool name is empty), against the claim that the
turn is classified as a tool invocation.  In the response text
`"FINAL ANSWER:"` the tool branch is not taken and a final-answer marker is
present, yet the parser yields no terminal answer (the extracted answer is
empty), against the claim that the turn is the terminal answer. -/
theorem tool_marker_empty_name_counterexample :
    (toolMarkerFirst "TOOL:".data = true ∧
     (reasoning_node_parse "TOOL:" "").tool_name = none ∧
     (reasoning_node_parse "TOOL:" "").final_answer = none) ∧
    (toolMarkerFirst "FINAL ANSWER:".data = false ∧
     containsSub "FINAL ANSWER:".data "FINAL ANSWER:".data = true ∧
     (reasoning_node_parse "FINAL ANSWER:" "").tool_name = none ∧
     (reasoning_node_parse "FINAL ANSWER:" "").final_answer = none) := by
  decide

/-- C1 (amended): full case analysis of the action parser.  (a) Whenever a
tool marker occurs with no final-answer marker before its first occurrence,
the parser never yields a final answer — even if a final-answer marker
appears later — and yields a tool selection exactly when the extracted tool
name is non-empty.  (b) Otherwise, when a final-answer marker is present,
the parser never yields a tool selection and yields the terminal answer
exactly when the extracted answer text is non-empty.  (c) When neither
branch applies, the parser produces neither a tool selection nor a final
answer; together with the empty-extraction cases of (a) and (b), a turn
from which no marker yields an action sets neither channel. -/
theorem tool_marker_precedence (reasoning_text question : String) :
    (toolMarkerFirst reasoning_text.data = true →
      (reasoning_node_parse reasoning_text question).final_answer = none ∧
      (reasoning_node_parse reasoning_text question).tool_name =
        (if (reasonToolName reasoning_text.data).isEmpty then none
         else some (String.mk (reasonToolName reasoning_text.data)))) ∧
    (toolMarkerFirst reasoning_text.data = false →
      containsSub reasoning_text.data "FINAL ANSWER:".data = true →
      (reasoning_node_parse reasoning_text question).tool_name = none ∧
      (reasoning_node_parse reasoning_text question).final_answer =
        (if (extract_between reasoning_text.data "FINAL ANSWER:".data
              none).isEmpty then none
         else some (String.mk (extract_between reasoning_text.data
           "FINAL ANSWER:".data none)))) ∧
    (toolMarkerFirst reasoning_text.data = false →
      containsSub reasoning_text.data "FINAL ANSWER:".data = false →
      (reasoning_node_parse reasoning_text question).tool_name = none ∧
      (reasoning_node_parse reasoning_text question).final_answer = none) := by
  refine ⟨fun h => ?_, fun h hf => ?_, fun h hf => ?_⟩
  · unfold reasoning_node_parse
    rw [h]
    by_cases he : (reasonToolName reasoning_text.data).isEmpty
    · simp [he]
    · simp [he]
  · unfold reasoning_node_parse
    rw [h, hf]
    by_cases he : (extract_between reasoning_text.data "FINAL ANSWER:".data
        none).isEmpty
    · simp [he]
    · simp [he]
  · unfold reasoning_node_parse
    rw [h, hf]
    exact ⟨rfl, rfl⟩

/-- Witness for C1 (amended): clause (a) at a response selecting the
calculator while a final-answer marker appears later in the same text, and
clause (b) at a response carrying a non-empty terminal answer. -/
theorem tool_marker_precedence_witness :
    ((reasoning_node_parse "TOOL: calculator\nINPUT: 2+2\nFINAL ANSWER: 4"
       "").final_answer = none ∧
     (reasoning_node_parse "TOOL: calculator\nINPUT: 2+2\nFINAL ANSWER: 4"
       "").tool_name = some "calculator") ∧
    ((reasoning_node_parse "THOUGHT: done\nFINAL ANSWER: 42"
       "").tool_name = none ∧
     (reasoning_node_parse "THOUGHT: done\nFINAL ANSWER: 42"
       "").final_answer = some "42") := by
  constructor
  · have h := (tool_marker_precedence
      "TOOL: calculator\nINPUT: 2+2\nFINAL ANSWER: 4" "").1 (by decide)
    refine ⟨h.1, ?_⟩
    rw [h.2]
    decide
  · have h := (tool_marker_precedence
      "THOUGHT: done\nFINAL ANSWER: 42" "").2.1 (by decide) (by decide)
    refine ⟨h.1, ?_⟩
    rw [h.2]
    decide

/-- Three identical datecalculator entries whose observation matches a
complete-answer pattern ("Days until ..."). -/
def loopWithCompleteAnswerSteps : List Step :=
  List.replicate 3
    { thought := "", tool := "datecalculator",
      tool_input := "\x7b'target_date': 'November 27, 2025'\x7d",
      observation := "Days until November 27, 2025" }

/-- C4 counterexample: a history whose last three entries are identical in
tool name and serialized input, on which `should_force_final_answer` returns
the reason `"complete_answer"` — not `"loop_detected"` — because the
complete-answer check runs first. -/
theorem loop_detected_counterexample :
    loopCond loopWithCompleteAnswerSteps = true ∧
    should_force_final_answer loopWithCompleteAnswerSteps =
      (true, "complete_answer") := by decide

/-- C4 (amended): `should_force_final_answer` returns the reason
`"loop_detected"` exactly when the last three entries are identical in tool
name and serialized input (hence at least three exist) and the most recent
observation does not match a complete-answer pattern; in particular it never
returns that reason for a history whose last three entries are not all
identical, or with fewer than three entries. -/
theorem loop_detected_characterization (steps : List Step) :
    (should_force_final_answer steps).2 = "loop_detected" ↔
      lastStepCompleteAnswer steps = false ∧ loopCond steps = true := by
  unfold should_force_final_answer lastStepCompleteAnswer
  cases hl : steps.getLast? with
  | none =>
    have he : steps = [] := List.getLast?_eq_none_iff.mp hl
    subst he
    simp [loopCond]
  | some last =>
    by_cases hca : completeAnswerPattern last
    · simp [hca]
    · by_cases hlc : loopCond steps
      · simp [hca, hlc]
      · by_cases h10 : 10 ≤ steps.length
        · simp [hca, hlc, h10]
        · simp [hca, hlc, h10]

/-- Ten identical web-search entries whose observation matches no
complete-answer pattern. -/
def tenIdenticalSteps : List Step :=
  List.replicate 10
    { thought := "", tool := "web_search",
      tool_input := "\x7b'query': 'capital of france'\x7d",
      observation := "Error searching web: boom" }

/-- C5 counterexample: a history of length ten on which
`should_force_final_answer` returns the reason `"loop_detected"` — not
`"max_steps"` — because the loop check runs before the step-cap check. -/
theorem max_steps_counterexample :
    tenIdenticalSteps.length = 10 ∧
    should_force_final_answer tenIdenticalSteps =
      (true, "loop_detected") := by decide

/-- C5 (amended): `should_force_final_answer` returns the reason
`"max_steps"` exactly when the history length has reached ten, the most
recent observation matches no complete-answer pattern and the last three
entries are not identical; in particular it never returns that reason for a
history of length less than ten. -/
theorem max_steps_characterization (steps : List Step) :
    (should_force_final_answer steps).2 = "max_steps" ↔
      lastStepCompleteAnswer steps = false ∧ loopCond steps = false ∧
      10 ≤ steps.length := by
  unfold should_force_final_answer lastStepCompleteAnswer
  cases hl : steps.getLast? with
  | none =>
    have he : steps = [] := List.getLast?_eq_none_iff.mp hl
    subst he
    simp
  | some last =>
    by_cases hca : completeAnswerPattern last
    · simp [hca]
    · by_cases hlc : loopCond steps
      · simp [hca, hlc]
      · by_cases h10 : 10 ≤ steps.length
        · simp [hca, hlc, h10]
        · simp [hca, hlc, h10]

/-- Tool oracle for the C2 run: the calculator observation is fixed; no
other registered tool is reached. -/
def unknownToolRunOracle : ToolOracle := fun name _ =>
  if name == "calculator" then .ok "Result: 4" else .ok "unused"

/-- Model responses for the C2 run: the first turn selects a tool name that
is not in the registry, the second a registered tool, the third answers. -/
def unknownToolRunResponses : List String :=
  ["TOOL: wikipedia\nINPUT: france", "TOOL: calculator\nINPUT: 2+2",
   "FINAL ANSWER: 4"]

/-- The trace of the C2 run. -/
def unknownToolRunTrace : List Event :=
  match workflowInvoke unknownToolRunOracle unknownToolRunResponses "q" with
  | .ok (_, trace) => trace
  | .error _ => []

/-- Tool-execution turns of a trace: the tool node ran with some selected
tool (registry hit, miss, or raise). -/
def isToolTurn : Event → Bool
  | .toolMissed _ => true
  | .toolRan _ _ => true
  | .toolRaised _ => true
  | _ => false

/-- The session property C2 asserts: after a registry miss, no further
tool-execution turn of any kind occurs. -/
def noToolTurnAfterMiss : List Event → Bool
  | [] => true
  | .toolMissed _ :: rest => !rest.any isToolTurn
  | _ :: rest => noToolTurnAfterMiss rest

/-- C2 counterexample: a session in which the parser selects the unknown
tool name `wikipedia`; the loop does not reach its terminal state at the
registry miss — the unconditional `tool → reason` edge re-enters reasoning,
and a further tool-execution turn (the calculator) runs afterwards. -/
theorem unknown_tool_counterexample :
    unknownToolRunTrace =
      [.reasoned "TOOL: wikipedia\nINPUT: france",
       .toolMissed "wikipedia",
       .reasoned "TOOL: calculator\nINPUT: 2+2",
       .toolRan "calculator" "Result: 4",
       .reasoned "FINAL ANSWER: 4"] ∧
    noToolTurnAfterMiss unknownToolRunTrace = false := by decide

/-- C2 (amended): a registry miss makes `tool_execution_node` return an
update holding only the not-found error — no tool executes, and the history
and observation channels are unchanged — and the graph's unconditional edge
then re-enters the reasoning node with that error recorded, rather than
terminating the session. -/
theorem unknown_tool_error_only (exec : ToolOracle) (state : AgentState)
    (name : String) (h1 : state.tool_name = some name) (h2 : name ≠ "")
    (h3 : registryNames.contains name = false) :
    tool_execution_node exec state =
      .errorOnly ("Tool '" ++ name ++ "' not found") ∧
    (applyToolUpdate state (tool_execution_node exec state)).steps =
      state.steps ∧
    (applyToolUpdate state (tool_execution_node exec state)).observation =
      state.observation ∧
    ∀ (responses : List String) (fuel k : Nat) (trace : List Event),
      runGraph exec responses (fuel + 1) .tool k state trace =
        runGraph exec responses fuel .reason k
          { state with error := some ("Tool '" ++ name ++ "' not found") }
          (trace ++ [.toolMissed name]) := by
  have hemp : name.isEmpty = false := by
    cases hh : name.isEmpty
    · rfl
    · exact absurd ((String.isEmpty_iff name).mp hh) h2
  have htr : truthy (some name) = true := by
    show (!name.isEmpty) = true
    rw [hemp]
    rfl
  have hmain : tool_execution_node exec state =
      .errorOnly ("Tool '" ++ name ++ "' not found") := by
    unfold tool_execution_node
    rw [h1, htr]
    simp only [Bool.not_true, Bool.false_eq_true, if_false, Option.getD_some]
    rw [h3]
    rfl
  refine ⟨hmain, by rw [hmain]; rfl, by rw [hmain]; rfl, ?_⟩
  intro responses fuel k trace
  show runGraph exec responses (fuel + 1) .tool k state trace = _
  rw [runGraph]
  simp only [hmain, h1, htr, h3, Bool.not_true, Bool.false_eq_true, if_false,
    Option.getD_some, Bool.not_false, if_true, applyToolUpdate]

/-- Witness for C2 (amended) at the unknown tool name `wikipedia`. -/
theorem unknown_tool_error_only_witness :
    tool_execution_node (fun _ _ => .ok "unused")
      { question := "q", tool_name := some "wikipedia" } =
      .errorOnly "Tool 'wikipedia' not found" :=
  (unknown_tool_error_only (fun _ _ => .ok "unused")
    { question := "q", tool_name := some "wikipedia" } "wikipedia" rfl
    (by decide) (by decide)).1

/-- C10: when the selected tool's execute call raises, the node returns an
update containing only the error field; the history and observation channels
are unchanged, so the failed invocation is never appended to the history. -/
theorem tool_exception_error_only (exec : ToolOracle) (state : AgentState)
    (name e : String) (h1 : state.tool_name = some name) (h2 : name ≠ "")
    (h3 : registryNames.contains name = true)
    (h4 : exec name ((state.tool_input).getD .empty) = .error e) :
    tool_execution_node exec state =
      .errorOnly ("Tool execution error: " ++ e) ∧
    (applyToolUpdate state (tool_execution_node exec state)).steps =
      state.steps ∧
    (applyToolUpdate state (tool_execution_node exec state)).observation =
      state.observation := by
  have hemp : name.isEmpty = false := by
    cases hh : name.isEmpty
    · rfl
    · exact absurd ((String.isEmpty_iff name).mp hh) h2
  have htr : truthy (some name) = true := by
    show (!name.isEmpty) = true
    rw [hemp]
    rfl
  have hmain : tool_execution_node exec state =
      .errorOnly ("Tool execution error: " ++ e) := by
    unfold tool_execution_node
    rw [h1, htr]
    simp only [Bool.not_true, Bool.false_eq_true, if_false, Option.getD_some]
    rw [h3]
    simp only [Bool.not_true, Bool.false_eq_true, if_false, h4]
  exact ⟨hmain, by rw [hmain]; rfl, by rw [hmain]; rfl⟩

/-- Witness for C10: the calculator raising on its input. -/
theorem tool_exception_error_only_witness :
    tool_execution_node (fun _ _ => .error "division by zero")
      { question := "q", tool_name := some "calculator",
        tool_input := some (.expression "1/0"), steps := some [] } =
      .errorOnly "Tool execution error: division by zero" :=
  (tool_exception_error_only (fun _ _ => .error "division by zero")
    { question := "q", tool_name := some "calculator",
      tool_input := some (.expression "1/0"), steps := some [] }
    "calculator" "division by zero" rfl (by decide) (by decide) rfl).1

/-- C6: every exception escaping the workflow invoke is caught and converted
into a result whose answer is non-empty text — the apologetic message when
the exception mentions the recursion limit, otherwise a message describing
the error — with the error recorded; the function is total, so the raw
exception never propagates. -/
theorem run_workflow_catches_exceptions (question e : String) :
    (run_qa_workflow question (.error e)).answer ≠ "" ∧
    (run_qa_workflow question (.error e)).answer =
      (if containsSub (pyLower e.data) "recursion limit".data then
        "I apologize, but I wasn't able to complete the request as it required too many steps. Please try rephrasing your question or being more specific."
      else "I encountered an error while processing your request: " ++ e) ∧
    (run_qa_workflow question (.error e)).error = some e := by
  refine ⟨?_, rfl, rfl⟩
  show ((run_qa_workflow question (.error e)).answer = "") → False
  intro hc
  have heq : (run_qa_workflow question (.error e)).answer =
      (if containsSub (pyLower e.data) "recursion limit".data then
        "I apologize, but I wasn't able to complete the request as it required too many steps. Please try rephrasing your question or being more specific."
      else "I encountered an error while processing your request: " ++ e) := rfl
  rw [heq] at hc
  by_cases hr : containsSub (pyLower e.data) "recursion limit".data
  · rw [if_pos hr] at hc
    exact absurd hc (by decide)
  · rw [if_neg hr] at hc
    have hlen := congrArg String.length hc
    rw [String.length_append] at hlen
    have hpos : 0 <
        ("I encountered an error while processing your request: ").length := by
      decide
    have hz : ("" : String).length = 0 := rfl
    rw [hz] at hlen
    omega

/-- Search page-extraction stub for the C7 counterexample (never reached). -/
def searchRaiseExtract : String → Except String String := fun _ => .ok "page"

/-- C7 counterexample: when the search HTTP call itself raises (the retry
wrapper re-raises the final failure), `search_and_extract` raises even
though the search API did not return zero results. -/
theorem search_raise_counterexample :
    isRaise (search_and_extract "q" (.error "connection error")
      searchRaiseExtract) = true ∧
    searchZeroResults (.error "connection error") = false := by decide

/-- C7 (amended): `search_and_extract` raises exactly when the search call
itself raises or the search API returns zero results; whenever a top result
exists, a failing page fetch or extraction degrades to the snippet text
(with a fixed fallback when the snippet field is absent) and the call
returns normally. -/
theorem search_raises_iff (query : String)
    (searchCall : Except String SearchData)
    (extractCall : String → Except String String) :
    (isRaise (search_and_extract query searchCall extractCall) =
      (isRaise searchCall || searchZeroResults searchCall)) ∧
    (∀ (data : SearchData) (top : SearchItem) (rest : List SearchItem)
        (e : String),
      searchCall = .ok data →
      data.items = some (top :: rest) →
      extractCall (top.link.getD "") = .error e →
      search_and_extract query searchCall extractCall =
        .ok { title := top.title.getD "", url := top.link.getD "",
              content := top.snippet.getD "Content extraction failed" }) := by
  constructor
  · cases searchCall with
    | error e => rfl
    | ok data =>
      cases hi : data.items with
      | none => simp [search_and_extract, isRaise, searchZeroResults, hi]
      | some l =>
        cases l with
        | nil => simp [search_and_extract, isRaise, searchZeroResults, hi]
        | cons top rest =>
          simp [search_and_extract, isRaise, searchZeroResults, hi]
  · intro data top rest e hs hi he
    subst hs
    simp only [search_and_extract]
    rw [hi]
    simp [he]

/-- Witness for C7 (amended): a timing-out page fetch degrading to the
snippet of the top result. -/
theorem search_raises_iff_witness :
    search_and_extract "capital of france"
      (.ok { items := some [{ title := some "Paris", link := some "u",
                              snippet := some "snip" }] })
      (fun _ => .error "timeout") =
      .ok { title := "Paris", url := "u", content := "snip" } := by
  have h := (search_raises_iff "capital of france"
    (.ok { items := some [{ title := some "Paris", link := some "u",
                            snippet := some "snip" }] })
    (fun _ => .error "timeout")).2
    { items := some [{ title := some "Paris", link := some "u",
                       snippet := some "snip" }] }
    { title := some "Paris", link := some "u", snippet := some "snip" }
    [] "timeout" rfl rfl rfl
  simpa using h

/-- Witness for C4 (amended): three identical web-search entries with a
neutral observation trip the loop detector. -/
theorem loop_detected_characterization_witness :
    (should_force_final_answer (List.replicate 3
      { thought := "", tool := "web_search",
        tool_input := "\x7b'query': 'x'\x7d",
        observation := "Error searching web" })).2 = "loop_detected" :=
  (loop_detected_characterization (List.replicate 3
    { thought := "", tool := "web_search",
      tool_input := "\x7b'query': 'x'\x7d",
      observation := "Error searching web" })).mpr (by decide)

/-- Witness for C5 (amended): ten entries whose last three differ in tool
name trip the step cap. -/
theorem max_steps_characterization_witness :
    (should_force_final_answer (List.replicate 9
      { thought := "", tool := "web_search",
        tool_input := "\x7b'query': 'x'\x7d",
        observation := "Error searching web" } ++
      [{ thought := "", tool := "datetime", tool_input := "\x7b\x7d",
         observation := "no clock" }])).2 = "max_steps" :=
  (max_steps_characterization (List.replicate 9
    { thought := "", tool := "web_search",
      tool_input := "\x7b'query': 'x'\x7d",
      observation := "Error searching web" } ++
    [{ thought := "", tool := "datetime", tool_input := "\x7b\x7d",
       observation := "no clock" }])).mpr (by decide)

/-- Witness for C6 at a concrete non-recursion-limit exception. -/
theorem run_workflow_catches_exceptions_witness :
    (run_qa_workflow "q" (.error "boom")).answer =
      "I encountered an error while processing your request: boom" := by
  have h := run_workflow_catches_exceptions "q" "boom"
  rw [h.2.1]
  decide

end WikiAgent
